import Mathlib

/-!
Shallow embedding of the dropchat client: the session-identity resolver
(`getChatParams`), the chat hook (`sendMessage`, `loadProjectInfo`), the landing
upload handlers (`handleDrop`, `handleFileInputChange`, `handleFileUpload`) and
the top-level app-phase state of `DemoPage`.  JavaScript string operations used
by the code (`String.prototype.split` with a one-character separator,
`String.prototype.replace` with a plain-string pattern, truthiness of
`string | null`) are modelled explicitly over `List Char`.
-/

namespace Dropchat

/-- Model of JavaScript `s.split(sep)` for a single-character separator,
over the character list of the string: `"".split('/') = [""]`,
`"/".split('/') = ["", ""]`, `"a/b".split('/') = ["a", "b"]`. -/
def splitChar (sep : Char) : List Char → List (List Char)
  | [] => [[]]
  | c :: rest =>
    if c = sep then [] :: splitChar sep rest
    else
      match splitChar sep rest with
      | [] => [[c]]
      | s :: ss => (c :: s) :: ss

/-- JavaScript `pathname.split('/')` returning Lean strings. -/
def jsSplitSlash (s : String) : List String :=
  (splitChar '/' s.data).map fun cs => String.mk cs

/-- Model of JavaScript `s.replace(pat, rep)` with a plain-string pattern:
only the first occurrence of `pat` is replaced. -/
def jsReplaceFirstChars (pat rep : List Char) : List Char → List Char
  | [] => []
  | c :: rest =>
    if pat.isPrefixOf (c :: rest) then rep ++ (c :: rest).drop pat.length
    else c :: jsReplaceFirstChars pat rep rest

/-- JavaScript `s.replace(pat, rep)` on strings (first occurrence only). -/
def jsStringReplace (s pat rep : String) : String :=
  String.mk (jsReplaceFirstChars pat.data rep.data s.data)

/-- Whether `pat` occurs as a contiguous subsequence of `l` (the condition
under which JavaScript `replace` changes the string). -/
def containsSeq (pat : List Char) : List Char → Bool
  | [] => pat.isEmpty
  | c :: rest => pat.isPrefixOf (c :: rest) || containsSeq pat rest

/-- Truthiness of a JavaScript `string | null` value: `null` and `""` are
falsy, every other string is truthy. -/
def jsTruthyStr : Option String → Bool
  | none => false
  | some s => !(s == "")

/-- Result of `getChatParams` in `useCustomChat`: the identity extracted from
the URL path. -/
structure ChatParams where
  user_hash : String
  project_id : String
deriving DecidableEq, Repr

/-- Embedding of `getChatParams` (src/unnamed/part_001): split the pathname on
`'/'`; if at least 4 segments and segment 1 is `"chat"`, return segments 2 and
3 as the identity, else `none`. -/
def getChatParams (pathname : String) : Option ChatParams :=
  let pathParts := jsSplitSlash pathname
  if pathParts.length ≥ 4 && pathParts.getD 1 "" == "chat" then
    some { user_hash := pathParts.getD 2 "", project_id := pathParts.getD 3 "" }
  else
    none

/-- One segment of a LangGraph message's content array (`{type, text}`). -/
structure ContentSegment where
  type : String
  text : String
deriving DecidableEq, Repr

/-- Embedding of the LangGraph `Message` values built by `useCustomChat`:
an id, a role (`"human"` or `"ai"`) and a list of content segments. -/
structure Msg where
  id : String
  type : String
  content : List ContentSegment
deriving DecidableEq, Repr

/-- Embedding of the `ChatResponse` interface (src/unnamed/part_001):
`{answer, sources, processing_steps, error?}`.  A missing `error` field is
`none`. -/
structure ChatResponse where
  answer : String
  sources : List String
  processing_steps : List String
  error : Option String
deriving DecidableEq, Repr

/-- Embedding of the `ProjectInfo` interface (src/unnamed/part_001). -/
structure ProjectInfo where
  project_id : String
  project_name : String
  description : Option String
  document_count : Nat
  total_chunks : Nat
  created_at : String
  document_names : List String
deriving DecidableEq, Repr

/-- The four `useState` cells of `useCustomChat`: `messages`, `isLoading`,
`error`, `documentName`. -/
structure ChatState where
  messages : List Msg
  isLoading : Bool
  error : Option String
  documentName : Option String
deriving DecidableEq, Repr

/-- Initial hook state: `useState<Message[]>([])`, `useState(false)`,
`useState<string | null>(null)`, `useState<string | null>(null)`. -/
def initialChatState : ChatState :=
  { messages := [], isLoading := false, error := none, documentName := none }

/-- How the `fetch('/api/chat', ...)` call settles, as observed by
`sendMessage`: the promise chain rejects (network failure, or `response.json()`
failing) carrying an error message, or it resolves with `response.ok`,
`response.statusText` and — when `json()` succeeds — the parsed body.
`response.json()` is only awaited on the `ok` branch, so the body is an
`Except` whose `error` case carries the message of the rejection thrown while
parsing. -/
inductive FetchOutcome where
  | reject (msg : String)
  | resolve (ok : Bool) (statusText : String) (body : Except String ChatResponse)

/-- The human message `sendMessage` appends before the network call: its id is
`"human-"` followed by `Date.now()`, its type `"human"`, its content a single
text segment. -/
def humanMessage (text : String) (now : Nat) : Msg :=
  { id := "human-" ++ toString now, type := "human",
    content := [{ type := "text", text := text }] }

/-- The ai message appended on a successful response. -/
def aiMessage (answer : String) (now : Nat) : Msg :=
  { id := "ai-" ++ toString now, type := "ai",
    content := [{ type := "text", text := answer }] }

/-- Embedding of `sendMessage` (src/unnamed/part_001, `useCustomChat`), as the
state transformer observed once the returned promise settles.  `pathname` is
the ambient location, `nowHuman`/`nowAi` the two `Date.now()` readings, and
`capturedDocumentName` the `documentName` value captured by the `useCallback`
closure (the source reads the closed-over state variable, not the live cell).
The second component records whether a network call was issued. -/
def sendMessage (pathname messageText : String) (nowHuman nowAi : Nat)
    (capturedDocumentName : Option String) (outcome : FetchOutcome)
    (s : ChatState) : ChatState × Bool :=
  match getChatParams pathname with
  | none => ({ s with error := some "Invalid chat URL format" }, false)
  | some _ =>
    let s1 : ChatState := { s with isLoading := true, error := none }
    let s2 : ChatState :=
      { s1 with messages := s1.messages ++ [humanMessage messageText nowHuman] }
    let s3 : ChatState :=
      match outcome with
      | .reject m => { s2 with error := some m }
      | .resolve ok statusText body =>
        if !ok then
          { s2 with error := some ("Chat request failed: " ++ statusText) }
        else
          match body with
          | .error m => { s2 with error := some m }
          | .ok data =>
            if jsTruthyStr data.error then
              { s2 with error := some (data.error.getD "") }
            else
              let s2' :=
                if !(jsTruthyStr capturedDocumentName) && decide (data.sources.length > 0) then
                  { s2 with documentName := some (data.sources.getD 0 "") }
                else s2
              { s2' with messages := s2'.messages ++ [aiMessage data.answer nowAi] }
    ({ s3 with isLoading := false }, true)

/-- How the `fetch` issued by `loadProjectInfo` settles: any failure
(non-`ok` status, rejection, JSON parse error) is swallowed; success carries
the parsed `ProjectInfo`. -/
inductive ProjectFetchOutcome where
  | failed
  | success (info : ProjectInfo)

/-- Embedding of `loadProjectInfo` (src/unnamed/part_001): no-op when the path
does not resolve or the fetch fails; on success, set `documentName` to the
first entry of `document_names` whenever that list is non-empty — without
consulting the current `documentName`. -/
def loadProjectInfo (pathname : String) (outcome : ProjectFetchOutcome)
    (s : ChatState) : ChatState :=
  match getChatParams pathname with
  | none => s
  | some _ =>
    match outcome with
    | .failed => s
    | .success info =>
      if decide (info.document_names.length > 0) then
        { s with documentName := some (info.document_names.getD 0 "") }
      else s

/-- The fields of a browser `File` object that the upload path reads. -/
structure JsFile where
  name : String
  size : Nat
  type : String
deriving DecidableEq, Repr

/-- What a landing-page upload attempt does before (or instead of) reaching
the network: `validationAlert` is the client-side size rejection (`alert`,
then return — no fetch); `networkPost label` is the `POST /api/create` issued
by `DemoPage.handleFileUpload` with `project_name = label`; `ignored` means
the handler did nothing at all. -/
inductive UploadAttempt where
  | validationAlert
  | networkPost (project_name : String)
  | ignored
deriving DecidableEq, Repr

/-- The `project_name` field `DemoPage.handleFileUpload` appends to the
multipart payload: `file.name.replace(".pdf", "")`. -/
def projectNameOf (f : JsFile) : String :=
  jsStringReplace f.name ".pdf" ""

/-- Embedding of `LandingPage.handleFileUpload` composed with the start of
`DemoPage.handleFileUpload`: reject when `file.size > 15 * 1024 * 1024`
(alert, no network call), otherwise build the payload and issue the POST.
Note there is no MIME-type check here. -/
def handleFileUpload (f : JsFile) : UploadAttempt :=
  if f.size > 15 * 1024 * 1024 then .validationAlert
  else .networkPost (projectNameOf f)

/-- Embedding of `LandingPage.handleDrop`: among the dropped files, find the
first whose `type` is `"application/pdf"`; upload it if found, else do
nothing. -/
def handleDrop (files : List JsFile) : UploadAttempt :=
  match files.find? (fun f => f.type == "application/pdf") with
  | some f => handleFileUpload f
  | none => .ignored

/-- Embedding of `LandingPage.handleFileInputChange`: upload
`e.target.files?.[0]` when present — with no client-side MIME-type check
(the hidden input's `accept` attribute is only a picker hint). -/
def handleFileInputChange (selected : Option JsFile) : UploadAttempt :=
  match selected with
  | some f => handleFileUpload f
  | none => .ignored

/-- The `{user_hash, project_id}` fields of a successful `/api/create`
response body. -/
structure CreateResult where
  user_hash : String
  project_id : String
deriving DecidableEq, Repr

/-- The canonical chat path built by `DemoPage.handleFileUpload` on upload
success. -/
def chatUrlOf (r : CreateResult) : String :=
  "/chat/" ++ r.user_hash ++ "/" ++ r.project_id

/-- The `AppState` union of `DemoPage`: `"landing" | "share" | "chat"`. -/
inductive AppPhase where
  | landing
  | share
  | chat
deriving DecidableEq, Repr

/-- The two `useState` cells of `DemoPage`: the phase and the stored chat
path (`chatId`). -/
structure AppState where
  appState : AppPhase
  chatId : Option String
deriving DecidableEq, Repr

/-- Initial `DemoPage` state: `useState<AppState>("landing")`,
`useState<string | null>(null)`. -/
def initialAppState : AppState :=
  { appState := .landing, chatId := none }

/-- The events that mutate `DemoPage`'s state: the startup `useEffect` URL
check, a successful upload (carrying the backend's `{user_hash, project_id}`),
and the `handleCreateNew` reset. -/
inductive AppEvent where
  | startupCheck (currentPath : String)
  | uploadSuccess (result : CreateResult)
  | createNew

/-- Embedding of `DemoPage`'s state updates: the `useEffect` sets
`chatId = currentPath`, `appState = "chat"` when the path starts with
`"/chat/"`; upload success sets `chatId` to the generated path and
`appState = "share"`; `handleCreateNew` clears `chatId` and returns to
`"landing"`. -/
def appStep (s : AppState) (e : AppEvent) : AppState :=
  match e with
  | .startupCheck currentPath =>
    if currentPath.startsWith "/chat/" then
      { appState := .chat, chatId := some currentPath }
    else s
  | .uploadSuccess r =>
    { appState := .share, chatId := some (chatUrlOf r) }
  | .createNew =>
    { appState := .landing, chatId := none }

/-- States of `DemoPage` reachable from the initial render by its updates. -/
inductive ReachableApp : AppState → Prop where
  | init : ReachableApp initialAppState
  | step {s : AppState} (e : AppEvent) : ReachableApp s → ReachableApp (appStep s e)

/-! ## Helper lemmas -/

/-- Splitting never produces an empty list of segments. -/
theorem splitChar_ne_nil (sep : Char) (l : List Char) : splitChar sep l ≠ [] := by
  induction l with
  | nil => simp [splitChar]
  | cons c rest ih =>
    by_cases hc : c = sep
    · simp [splitChar, hc]
    · simp only [splitChar, if_neg hc]
      cases h : splitChar sep rest with
      | nil => simp
      | cons s ss => simp

/-- Splitting a list with an explicit separator in the middle splits the two
halves independently. -/
theorem splitChar_append_sep (sep : Char) (a b : List Char) :
    splitChar sep (a ++ sep :: b) = splitChar sep a ++ splitChar sep b := by
  induction a with
  | nil => simp [splitChar]
  | cons c a' ih =>
    by_cases hc : c = sep
    · simp [splitChar, hc, ih]
    · obtain ⟨s0, ss0, hs⟩ := List.exists_cons_of_ne_nil (splitChar_ne_nil sep a')
      simp only [List.cons_append, splitChar, if_neg hc, List.append_eq, ih, hs]

/-! ## Claim theorems -/

/-- C4: the session-identity resolver is a pure function of the path string:
with `parts` the result of splitting on `'/'`, it resolves to
`{parts[2], parts[3]}` exactly when there are at least 4 parts and part 1 is
`"chat"`, and is unresolved otherwise; `"/chat/abc/123"` resolves to
`{ownerHash := "abc", sessionId := "123"}`, while `"/"`, `"/chat"` and
`"/chat/abc"` are unresolved. -/
theorem C4_resolver_characterization :
    (∀ pathname : String,
      getChatParams pathname =
        if (jsSplitSlash pathname).length ≥ 4 ∧ (jsSplitSlash pathname).getD 1 "" = "chat" then
          some { user_hash := (jsSplitSlash pathname).getD 2 "",
                 project_id := (jsSplitSlash pathname).getD 3 "" }
        else none) ∧
    getChatParams "/chat/abc/123" = some { user_hash := "abc", project_id := "123" } ∧
    getChatParams "/" = none ∧
    getChatParams "/chat" = none ∧
    getChatParams "/chat/abc" = none := by
  refine ⟨fun pathname => ?_, by decide, by decide, by decide, by decide⟩
  by_cases h : (jsSplitSlash pathname).length ≥ 4 ∧ (jsSplitSlash pathname).getD 1 "" = "chat"
  · rw [if_pos h]
    simp only [getChatParams]
    rw [if_pos (by rw [Bool.and_eq_true, decide_eq_true_eq, beq_iff_eq]; exact ⟨h.1, h.2⟩)]
  · rw [if_neg h]
    simp only [getChatParams]
    rw [if_neg (by rw [Bool.and_eq_true, decide_eq_true_eq, beq_iff_eq]; exact h)]

/-- C9: when the location does not resolve to a session identity,
`sendMessage` records the invalid-session failure in the error state, issues
no network call, and leaves the message history (and all other state)
unchanged. -/
theorem C9_invalid_session_atomic (pathname messageText : String)
    (nowHuman nowAi : Nat) (cap : Option String) (outcome : FetchOutcome)
    (s : ChatState) (h : getChatParams pathname = none) :
    (sendMessage pathname messageText nowHuman nowAi cap outcome s).2 = false ∧
    (sendMessage pathname messageText nowHuman nowAi cap outcome s).1.messages = s.messages ∧
    (sendMessage pathname messageText nowHuman nowAi cap outcome s).1.error
      = some "Invalid chat URL format" ∧
    (sendMessage pathname messageText nowHuman nowAi cap outcome s).1.isLoading = s.isLoading ∧
    (sendMessage pathname messageText nowHuman nowAi cap outcome s).1.documentName
      = s.documentName := by
  simp [sendMessage, h]

/-- Witness for C9 at the unresolvable path `"/nope"`. -/
theorem C9_witness :
    (sendMessage "/nope" "hi" 1 2 none (.reject "x") initialChatState).2 = false ∧
    (sendMessage "/nope" "hi" 1 2 none (.reject "x") initialChatState).1.messages
      = initialChatState.messages ∧
    (sendMessage "/nope" "hi" 1 2 none (.reject "x") initialChatState).1.error
      = some "Invalid chat URL format" ∧
    (sendMessage "/nope" "hi" 1 2 none (.reject "x") initialChatState).1.isLoading
      = initialChatState.isLoading ∧
    (sendMessage "/nope" "hi" 1 2 none (.reject "x") initialChatState).1.documentName
      = initialChatState.documentName :=
  C9_invalid_session_atomic "/nope" "hi" 1 2 none (.reject "x") initialChatState (by decide)

/-- C3: whenever `sendMessage` runs with a resolvable session identity, the
`isLoading` flag is false once the operation settles — on success, on
non-success HTTP status, on a body-level error field, and on rejected
transport errors alike (`finally` clears it on every path). -/
theorem C3_isLoading_cleared (pathname messageText : String)
    (nowHuman nowAi : Nat) (cap : Option String) (outcome : FetchOutcome)
    (s : ChatState) (h : (getChatParams pathname).isSome = true) :
    (sendMessage pathname messageText nowHuman nowAi cap outcome s).1.isLoading = false := by
  obtain ⟨p, hp⟩ := Option.isSome_iff_exists.mp h
  simp [sendMessage, hp]

/-- Witness for C3: a resolvable path with a transport-rejection outcome. -/
theorem C3_witness :
    (sendMessage "/chat/abc/123" "hi" 1 2 none (.reject "Failed to fetch")
        initialChatState).1.isLoading = false :=
  C3_isLoading_cleared "/chat/abc/123" "hi" 1 2 none (.reject "Failed to fetch")
    initialChatState (by decide)

/-- C10: in every reachable `DemoPage` state, the stored chat path is non-null
exactly when the phase is `share` or `chat`, and the `landing` phase always
holds a null path. -/
theorem C10_phase_path_invariant (s : AppState) (h : ReachableApp s) :
    (s.chatId ≠ none ↔ (s.appState = .share ∨ s.appState = .chat)) ∧
    (s.appState = .landing → s.chatId = none) := by
  induction h with
  | init => simp [initialAppState]
  | step e _ ih =>
    cases e with
    | startupCheck p =>
      by_cases hp : p.startsWith "/chat/" = true
      · simp [appStep, hp]
      · simpa [appStep, hp] using ih
    | uploadSuccess r => simp [appStep]
    | createNew => simp [appStep]

/-- Witness for C10: the reachable state after a successful upload. -/
theorem C10_witness :
    ((appStep initialAppState (.uploadSuccess { user_hash := "abc", project_id := "123" })).chatId
        ≠ none ↔
      ((appStep initialAppState (.uploadSuccess { user_hash := "abc", project_id := "123" })).appState
          = .share ∨
        (appStep initialAppState
            (.uploadSuccess { user_hash := "abc", project_id := "123" })).appState = .chat)) ∧
    ((appStep initialAppState (.uploadSuccess { user_hash := "abc", project_id := "123" })).appState
        = .landing →
      (appStep initialAppState (.uploadSuccess { user_hash := "abc", project_id := "123" })).chatId
        = none) :=
  C10_phase_path_invariant _
    (ReachableApp.step (.uploadSuccess { user_hash := "abc", project_id := "123" })
      ReachableApp.init)

/-- C2 is refuted as stated: a 2xx body whose `error` field is present but
empty (`""`) is falsy in JavaScript, so `sendMessage` treats it as success —
it appends an ai message and leaves the error state null. -/
theorem C2_counterexample :
    (sendMessage "/chat/u/p" "hi" 1 2 none
        (.resolve true "OK"
          (.ok { answer := "the answer", sources := [], processing_steps := [], error := some "" }))
        initialChatState).1.messages
      = [humanMessage "hi" 1, aiMessage "the answer" 2] ∧
    (sendMessage "/chat/u/p" "hi" 1 2 none
        (.resolve true "OK"
          (.ok { answer := "the answer", sources := [], processing_steps := [], error := some "" }))
        initialChatState).1.error
      = none := by
  decide

/-- C2 amended: with a resolvable session identity, a non-success HTTP status,
or a 2xx body whose `error` field is present and non-empty, leaves the history
with exactly one new human message (carrying the sent text), appends no ai
message, and records a non-null error. -/
theorem C2_amended_failure_semantics (pathname messageText : String)
    (nowHuman nowAi : Nat) (cap : Option String) (s : ChatState)
    (pr : ChatParams) (h : getChatParams pathname = some pr) :
    (∀ (statusText : String) (body : Except String ChatResponse),
      (sendMessage pathname messageText nowHuman nowAi cap
          (.resolve false statusText body) s).1.messages
        = s.messages ++ [humanMessage messageText nowHuman] ∧
      (sendMessage pathname messageText nowHuman nowAi cap
          (.resolve false statusText body) s).1.error
        = some ("Chat request failed: " ++ statusText)) ∧
    (∀ (statusText : String) (data : ChatResponse) (e : String),
      data.error = some e → e ≠ "" →
      (sendMessage pathname messageText nowHuman nowAi cap
          (.resolve true statusText (.ok data)) s).1.messages
        = s.messages ++ [humanMessage messageText nowHuman] ∧
      (sendMessage pathname messageText nowHuman nowAi cap
          (.resolve true statusText (.ok data)) s).1.error = some e) := by
  constructor
  · intro statusText body
    constructor <;> simp [sendMessage, h]
  · intro statusText data e he hne
    constructor <;> simp [sendMessage, h, he, jsTruthyStr, hne]

/-- Witness for C2 amended: HTTP 500 and a body-level error, both at concrete
inputs. -/
theorem C2_amended_witness :
    ((sendMessage "/chat/a/b" "q" 1 2 none
        (.resolve false "Internal Server Error" (.error "unread")) initialChatState).1.messages
      = initialChatState.messages ++ [humanMessage "q" 1] ∧
    (sendMessage "/chat/a/b" "q" 1 2 none
        (.resolve false "Internal Server Error" (.error "unread")) initialChatState).1.error
      = some ("Chat request failed: " ++ "Internal Server Error")) ∧
    ((sendMessage "/chat/a/b" "q" 1 2 none
        (.resolve true "OK"
          (.ok { answer := "", sources := [], processing_steps := [], error := some "boom" }))
        initialChatState).1.messages
      = initialChatState.messages ++ [humanMessage "q" 1] ∧
    (sendMessage "/chat/a/b" "q" 1 2 none
        (.resolve true "OK"
          (.ok { answer := "", sources := [], processing_steps := [], error := some "boom" }))
        initialChatState).1.error = some "boom") :=
  have h := C2_amended_failure_semantics "/chat/a/b" "q" 1 2 none initialChatState
    { user_hash := "a", project_id := "b" } (by decide)
  ⟨h.1 "Internal Server Error" (.error "unread"),
    h.2 "OK" { answer := "", sources := [], processing_steps := [], error := some "boom" }
      "boom" rfl (by decide)⟩

/-- C5: starting from the empty history, two sequential successful sends leave
the history `[human1, ai1, human2, ai2]` in exactly that order; the first call
alone leaves `[human1, ai1]`, and every send with a resolvable identity only
ever appends — the human message first, then at most a tail — so the sequence
is append-only throughout. -/
theorem C5_two_successful_sends (pathname text1 text2 st1 st2 : String)
    (n1 n2 n3 n4 : Nat) (cap1 cap2 : Option String) (d1 d2 : ChatResponse)
    (pr : ChatParams) (h : getChatParams pathname = some pr)
    (h1 : jsTruthyStr d1.error = false) (h2 : jsTruthyStr d2.error = false) :
    (sendMessage pathname text2 n3 n4 cap2 (.resolve true st2 (.ok d2))
        (sendMessage pathname text1 n1 n2 cap1 (.resolve true st1 (.ok d1))
          initialChatState).1).1.messages
      = [humanMessage text1 n1, aiMessage d1.answer n2,
         humanMessage text2 n3, aiMessage d2.answer n4] ∧
    (sendMessage pathname text1 n1 n2 cap1 (.resolve true st1 (.ok d1))
        initialChatState).1.messages
      = [humanMessage text1 n1, aiMessage d1.answer n2] ∧
    (∀ (text : String) (na nb : Nat) (cap : Option String) (outcome : FetchOutcome)
        (s : ChatState), ∃ tail,
      (sendMessage pathname text na nb cap outcome s).1.messages
        = s.messages ++ humanMessage text na :: tail) := by
  have hsucc : ∀ (text st : String) (na nb : Nat) (cap : Option String) (d : ChatResponse)
      (s : ChatState), jsTruthyStr d.error = false →
      (sendMessage pathname text na nb cap (.resolve true st (.ok d)) s).1.messages
        = s.messages ++ [humanMessage text na, aiMessage d.answer nb] := by
    intro text st na nb cap d s hd
    by_cases hsrc : d.sources.length > 0 <;>
      cases hcap : jsTruthyStr cap <;>
        simp [sendMessage, h, hd, hsrc, hcap]
  refine ⟨?_, ?_, ?_⟩
  · rw [hsucc text2 st2 n3 n4 cap2 d2 _ h2, hsucc text1 st1 n1 n2 cap1 d1 _ h1]
    simp [initialChatState]
  · rw [hsucc text1 st1 n1 n2 cap1 d1 _ h1]
    simp [initialChatState]
  · intro text na nb cap outcome s
    rcases outcome with m | ⟨ok, st, body⟩
    · exact ⟨[], by simp [sendMessage, h]⟩
    · cases ok with
      | false => exact ⟨[], by simp [sendMessage, h]⟩
      | true =>
        cases body with
        | error m => exact ⟨[], by simp [sendMessage, h]⟩
        | ok data =>
          by_cases hd : jsTruthyStr data.error = true
          · exact ⟨[], by simp [sendMessage, h, hd]⟩
          · exact ⟨[aiMessage data.answer nb], by
              rw [hsucc text st na nb cap data s (by simpa using hd)]⟩

/-- Witness for C5 at concrete inputs: two successful sends on
`"/chat/a/b"`. -/
theorem C5_witness :
    (sendMessage "/chat/a/b" "q2" 3 4 none
        (.resolve true "OK"
          (.ok { answer := "A2", sources := ["s.pdf"], processing_steps := [], error := none }))
        (sendMessage "/chat/a/b" "q1" 1 2 none
          (.resolve true "OK"
            (.ok { answer := "A1", sources := [], processing_steps := [], error := none }))
          initialChatState).1).1.messages
      = [humanMessage "q1" 1, aiMessage "A1" 2, humanMessage "q2" 3, aiMessage "A2" 4] ∧
    (sendMessage "/chat/a/b" "q1" 1 2 none
        (.resolve true "OK"
          (.ok { answer := "A1", sources := [], processing_steps := [], error := none }))
        initialChatState).1.messages
      = [humanMessage "q1" 1, aiMessage "A1" 2] :=
  have h := C5_two_successful_sends "/chat/a/b" "q1" "q2" "OK" "OK" 1 2 3 4 none none
    { answer := "A1", sources := [], processing_steps := [], error := none }
    { answer := "A2", sources := ["s.pdf"], processing_steps := [], error := none }
    { user_hash := "a", project_id := "b" } (by decide) (by decide) (by decide)
  ⟨h.1, h.2.1⟩

/-- C7 is refuted as stated: `documentName` is first set to `"a.pdf"` from the
sources of a successful chat response, and a later-completing metadata fetch
whose `document_names` is `["b.pdf"]` overwrites it — `loadProjectInfo` writes
unconditionally, so the value is not first-write-wins across the two
sources. -/
theorem C7_counterexample :
    (sendMessage "/chat/u/p" "q" 1 2 none
        (.resolve true "OK"
          (.ok { answer := "ans", sources := ["a.pdf"], processing_steps := [], error := none }))
        initialChatState).1.documentName = some "a.pdf" ∧
    (loadProjectInfo "/chat/u/p"
        (.success { project_id := "p", project_name := "n", description := none,
                    document_count := 1, total_chunks := 1, created_at := "t",
                    document_names := ["b.pdf"] })
        (sendMessage "/chat/u/p" "q" 1 2 none
          (.resolve true "OK"
            (.ok { answer := "ans", sources := ["a.pdf"], processing_steps := [], error := none }))
          initialChatState).1).documentName = some "b.pdf" := by
  decide

/-- C7 amended: the sources fallback alone is first-write-wins — a
`sendMessage` call whose captured `documentName` is already set (truthy) never
changes it, for every outcome — but the metadata fetch is not: whenever it
completes successfully with a non-empty `document_names` on a resolvable path,
it sets `documentName` to the first entry, overwriting any present value. -/
theorem C7_amended_document_name (pathname text : String) (n1 n2 : Nat)
    (cap : Option String) (outcome : FetchOutcome) (s : ChatState)
    (hcap : jsTruthyStr cap = true) :
    (sendMessage pathname text n1 n2 cap outcome s).1.documentName = s.documentName ∧
    (∀ (info : ProjectInfo) (pr : ChatParams), getChatParams pathname = some pr →
      0 < info.document_names.length →
      (loadProjectInfo pathname (.success info) s).documentName
        = some (info.document_names.getD 0 "")) := by
  constructor
  · cases hpath : getChatParams pathname with
    | none => simp [sendMessage, hpath]
    | some pr =>
      rcases outcome with m | ⟨ok, st, body⟩
      · simp [sendMessage, hpath]
      · cases ok with
        | false => simp [sendMessage, hpath]
        | true =>
          cases body with
          | error m => simp [sendMessage, hpath]
          | ok data =>
            by_cases hd : jsTruthyStr data.error = true <;>
              simp [sendMessage, hpath, hd, hcap]
  · intro info pr hpath hlen
    simp [loadProjectInfo, hpath, hlen]

/-- Witness for C7 amended: captured name `"a.pdf"`, a successful response
with different sources, and a metadata fetch carrying `["b.pdf"]`. -/
theorem C7_amended_witness :
    (sendMessage "/chat/u/p" "q" 1 2 (some "a.pdf")
        (.resolve true "OK"
          (.ok { answer := "ans", sources := ["c.pdf"], processing_steps := [], error := none }))
        initialChatState).1.documentName = initialChatState.documentName ∧
    (loadProjectInfo "/chat/u/p"
        (.success { project_id := "p", project_name := "n", description := none,
                    document_count := 1, total_chunks := 1, created_at := "t",
                    document_names := ["b.pdf"] })
        initialChatState).documentName = some (["b.pdf"].getD 0 "") :=
  have h := C7_amended_document_name "/chat/u/p" "q" 1 2 (some "a.pdf")
    (.resolve true "OK"
      (.ok { answer := "ans", sources := ["c.pdf"], processing_steps := [], error := none }))
    initialChatState (by decide)
  ⟨h.1, h.2 { project_id := "p", project_name := "n", description := none,
              document_count := 1, total_chunks := 1, created_at := "t",
              document_names := ["b.pdf"] }
      { user_hash := "u", project_id := "p" } (by decide) (by decide)⟩

/-- C1 is refuted as stated: on the file-picker path the MIME type is never
checked client-side, so a small `"text/plain"` file is POSTed to the
session-creation endpoint instead of failing validation. -/
theorem C1_counterexample :
    ("text/plain" ≠ "application/pdf") ∧
    handleFileInputChange (some { name := "notes.txt", size := 100, type := "text/plain" })
      = .networkPost "notes.txt" := by
  decide

/-- C1 amended: files over 15 MiB fail the client-side size check with a
validation alert (no network call) on both paths; a drop containing no
PDF-typed file is silently ignored (no network call, but also no validation
error); the file-picker path performs no MIME-type check, so the MIME
precondition is enforced client-side only on the drag-and-drop path. -/
theorem C1_amended_upload_validation (f : JsFile) (files : List JsFile) :
    (f.size > 15 * 1024 * 1024 → handleFileInputChange (some f) = .validationAlert) ∧
    ((∀ g ∈ files, g.type ≠ "application/pdf") → handleDrop files = .ignored) ∧
    (f.type = "application/pdf" → f.size > 15 * 1024 * 1024 →
      handleDrop (f :: files) = .validationAlert) := by
  refine ⟨?_, ?_, ?_⟩
  · intro hsize
    simp [handleFileInputChange, handleFileUpload, hsize]
  · intro hall
    have hnone : files.find? (fun f => f.type == "application/pdf") = none := by
      rw [List.find?_eq_none]
      intro g hg
      simpa using hall g hg
    simp [handleDrop, hnone]
  · intro htype hsize
    have hfind : (f :: files).find? (fun f => f.type == "application/pdf") = some f :=
      List.find?_cons_of_pos _ (by simpa using htype)
    simp [handleDrop, hfind, handleFileUpload, hsize]

/-- Witness for C1 amended: an oversized PDF and a drop of one plain-text
file. -/
theorem C1_amended_witness :
    handleFileInputChange (some { name := "big.pdf", size := 15 * 1024 * 1024 + 1,
                                  type := "application/pdf" })
      = .validationAlert ∧
    handleDrop [{ name := "notes.txt", size := 100, type := "text/plain" }] = .ignored ∧
    handleDrop ({ name := "big.pdf", size := 15 * 1024 * 1024 + 1, type := "application/pdf" }
        :: [{ name := "notes.txt", size := 100, type := "text/plain" }])
      = .validationAlert :=
  have h := C1_amended_upload_validation
    { name := "big.pdf", size := 15 * 1024 * 1024 + 1, type := "application/pdf" }
    [{ name := "notes.txt", size := 100, type := "text/plain" }]
  ⟨h.1 (by decide), h.2.1 (by decide), h.2.2 (by decide) (by decide)⟩

/-- C8 is refuted as stated: `file.name.replace(".pdf", "")` removes the first
occurrence of `".pdf"`, not the suffix — for the name `"x.pdfy.pdf"` (which
does end in `".pdf"`) the label is `"xy.pdf"`, not the suffix-stripped
`"x.pdfy"`. -/
theorem C8_counterexample :
    ("x.pdfy" ++ ".pdf" : String) = "x.pdfy.pdf" ∧
    projectNameOf { name := "x.pdfy.pdf", size := 1, type := "application/pdf" } = "xy.pdf" ∧
    ("xy.pdf" : String) ≠ "x.pdfy" := by
  decide

/-- C8 amended: the project label is the file name with the first occurrence
of `".pdf"` removed; in particular, for a name `stem ++ ".pdf"` whose stem
contains no `'.'` the label is exactly the stem, and a name in which `".pdf"`
does not occur at all is unchanged. -/
theorem C8_amended_project_label (f : JsFile) (stem : List Char) :
    (f.name.data = stem ++ ".pdf".data → '.' ∉ stem →
      projectNameOf f = String.mk stem) ∧
    (containsSeq ".pdf".data f.name.data = false → projectNameOf f = f.name) := by
  have hstrip : ∀ l : List Char, '.' ∉ l →
      jsReplaceFirstChars ['.', 'p', 'd', 'f'] [] (l ++ ['.', 'p', 'd', 'f']) = l := by
    intro l
    induction l with
    | nil => intro _; decide
    | cons c l' ih =>
      intro hmem
      have hc : ('.' == c) = false := by
        simp only [beq_eq_false_iff_ne]
        exact fun hcc => hmem (by simp [← hcc])
      simp only [List.cons_append, jsReplaceFirstChars, List.isPrefixOf, hc,
        Bool.false_and, Bool.false_eq_true, if_false, List.append_eq, List.cons.injEq,
        true_and]
      exact ih (fun hm => hmem (List.mem_cons_of_mem c hm))
  have hkeep : ∀ l : List Char, containsSeq ['.', 'p', 'd', 'f'] l = false →
      jsReplaceFirstChars ['.', 'p', 'd', 'f'] [] l = l := by
    intro l
    induction l with
    | nil => intro _; rfl
    | cons c l' ih =>
      intro hno
      rw [show containsSeq ['.', 'p', 'd', 'f'] (c :: l')
            = (List.isPrefixOf ['.', 'p', 'd', 'f'] (c :: l')
                || containsSeq ['.', 'p', 'd', 'f'] l') from rfl,
        Bool.or_eq_false_iff] at hno
      simp only [jsReplaceFirstChars, hno.1, Bool.false_eq_true, if_false, List.cons.injEq,
        true_and]
      exact ih hno.2
  have hpat : (".pdf" : String).data = ['.', 'p', 'd', 'f'] := by decide
  have hrep : ("" : String).data = [] := by decide
  constructor
  · intro hname hdot
    show String.mk (jsReplaceFirstChars ".pdf".data "".data f.name.data) = String.mk stem
    rw [hpat, hrep, hname, hpat, hstrip stem hdot]
  · intro hno
    rw [hpat] at hno
    show String.mk (jsReplaceFirstChars ".pdf".data "".data f.name.data) = f.name
    rw [hpat, hrep, hkeep _ hno]

/-- Witness for C8 amended: the name `"report.pdf"` yields label `"report"`,
and the name `"notes.txt"` is unchanged. -/
theorem C8_amended_witness :
    projectNameOf { name := "report.pdf", size := 1, type := "application/pdf" }
      = String.mk "report".data ∧
    projectNameOf { name := "notes.txt", size := 1, type := "text/plain" } = "notes.txt" :=
  ⟨(C8_amended_project_label
      { name := "report.pdf", size := 1, type := "application/pdf" } "report".data).1
      (by decide) (by decide),
    (C8_amended_project_label
      { name := "notes.txt", size := 1, type := "text/plain" } []).2 (by decide)⟩

/-- C6: for all backend-supplied `user_hash` and `project_id`, the path built
by the upload workflow resolves: applying the session-identity resolver to
`"/chat/" ++ user_hash ++ "/" ++ project_id` never yields unresolved. -/
theorem C6_roundtrip (r : CreateResult) :
    (getChatParams (chatUrlOf r)).isSome = true := by
  have h1 : (chatUrlOf r).data
      = ("/chat/" : String).data ++ (r.user_hash.data ++ (("/" : String).data
          ++ r.project_id.data)) := by
    simp [chatUrlOf, String.data_append]
  have h2 : (chatUrlOf r).data
      = ['/', 'c', 'h', 'a', 't'] ++ '/' :: (r.user_hash.data ++ '/' :: r.project_id.data) := by
    rw [h1, show ("/chat/" : String).data = ['/', 'c', 'h', 'a', 't', '/'] by decide,
      show ("/" : String).data = ['/'] by decide]
    simp
  have hsplit : jsSplitSlash (chatUrlOf r)
      = String.mk [] :: String.mk ['c', 'h', 'a', 't']
          :: ((splitChar '/' r.user_hash.data ++ splitChar '/' r.project_id.data).map
                fun cs => String.mk cs) := by
    rw [jsSplitSlash, h2, splitChar_append_sep, splitChar_append_sep,
      show splitChar '/' ['/', 'c', 'h', 'a', 't'] = [[], ['c', 'h', 'a', 't']] by decide]
    simp
  have hlu : 0 < (splitChar '/' r.user_hash.data).length :=
    List.length_pos.mpr (splitChar_ne_nil '/' r.user_hash.data)
  have hlv : 0 < (splitChar '/' r.project_id.data).length :=
    List.length_pos.mpr (splitChar_ne_nil '/' r.project_id.data)
  have hlen : (jsSplitSlash (chatUrlOf r)).length ≥ 4 := by
    rw [hsplit]
    simp only [List.length_cons, List.length_map, List.length_append]
    omega
  have hget : (jsSplitSlash (chatUrlOf r)).getD 1 "" = "chat" := by
    rw [hsplit, List.getD_cons_succ, List.getD_cons_zero]
  have hcond : ((jsSplitSlash (chatUrlOf r)).length ≥ 4
      && (jsSplitSlash (chatUrlOf r)).getD 1 "" == "chat") = true := by
    rw [Bool.and_eq_true, decide_eq_true_eq, beq_iff_eq]
    exact ⟨hlen, hget⟩
  simp only [getChatParams]
  rw [if_pos hcond]
  rfl

end Dropchat
